import Mathlib

/-!
Verification development for the nginx log watcher (`watcher.py`).

The Python program is embedded shallowly:
- regex searches `re.search(r'tag=(CLASS+)', line)` become a left-to-right
  scanner over the character list (the patterns involved are a literal tag
  followed by a greedy nonempty character-class run, so matching is
  deterministic and backtracking-free);
- the mutable `LogWatcher` state becomes an explicit `WState` record threaded
  through the functions, and wall-clock reads (`time.time()`) become an
  explicit `now : ℚ` argument;
- console prints and Slack webhook posts become a trace of `Out` events
  (payload-level: the exact rendered strings are presentation only);
- Python exceptions inside `parse_log_line` become `Except Unit`, and the
  enclosing `try/except` becomes `Except.toOption`.
-/

namespace Watcher

/-- Python `\s` (ASCII): space, tab, newline, vertical tab, form feed,
carriage return. -/
def pyIsSpace (c : Char) : Bool :=
  c = ' ' || c = '\t' || c = '\n' || c = '\x0b' || c = '\x0c' || c = '\r'

/-- Character class `\S`. -/
def notSpaceClass (c : Char) : Bool := !(pyIsSpace c)

/-- Character class `[\d.]` (used by `request_time=([\d.]+)`). -/
def floatClass (c : Char) : Bool := c.isDigit || c = '.'

/-- Character class `[\d.,\s]` (used by `upstream_response_time=([\d.,\s]+)`). -/
def urtClass (c : Char) : Bool := c.isDigit || c = '.' || c = ',' || pyIsSpace c

/-- Maximal (greedy) run of characters satisfying `P` at the head of the list. -/
def takeRun (P : Char → Bool) : List Char → List Char
  | [] => []
  | c :: rest => if P c then c :: takeRun P rest else []

/-- `re.search(r'TAG(P+)', line)`: scan positions left to right; at the first
position where the literal `tag` occurs followed by a nonempty run of
characters in class `P`, capture that greedy run. -/
def searchTagClass (tag : List Char) (P : Char → Bool) : List Char → Option (List Char)
  | [] => none
  | c :: rest =>
    if tag.isPrefixOf (c :: rest) then
      let cap := takeRun P ((c :: rest).drop tag.length)
      if cap.isEmpty then searchTagClass tag P rest else some cap
    else searchTagClass tag P rest

/-- After an opening quote and the closing quote were consumed: match
`' ' (\d{3})` and return the captured 3-digit number. -/
def afterCloseQuote : List Char → Option Nat
  | ' ' :: d1 :: d2 :: d3 :: _ =>
    if d1.isDigit && d2.isDigit && d3.isDigit then
      some ((d1.toNat - 48) * 100 + (d2.toNat - 48) * 10 + (d3.toNat - 48))
    else none
  | _ => none

/-- Consume `[^"]*` then a closing quote, then delegate; `[^"]*` cannot cross a
quote, so there is no backtracking. -/
def scanToClose : List Char → Option Nat
  | [] => none
  | c :: rest => if c = '"' then afterCloseQuote rest else scanToClose rest

/-- `re.search(r'"[^"]*" (\d{3})', line)`: leftmost occurrence of a quoted
segment followed by a space and a 3-digit code. -/
def searchQuotedStatus : List Char → Option Nat
  | [] => none
  | c :: rest =>
    if c = '"' then
      match scanToClose rest with
      | some n => some n
      | none => searchQuotedStatus rest
    else searchQuotedStatus rest

/-- Numeric value of a digit list (most significant first). -/
def natOfDigits (l : List Char) : Nat :=
  l.foldl (fun a c => 10 * a + (c.toNat - 48)) 0

/-- Python `int(token)` body validity (after an optional sign): one or more
digits, single underscores allowed only between digits. The tokens fed to it
here come from splitting a `\S+` capture on commas, so they carry no
whitespace. -/
def pyIntValid (body : List Char) : Bool :=
  !body.isEmpty &&
  (match body.head? with | some c => c.isDigit | none => false) &&
  (match body.getLast? with | some c => c.isDigit | none => false) &&
  body.all (fun c => c.isDigit || c = '_') &&
  (body.zip body.tail).all (fun p => !(p.1 = '_' && p.2 = '_'))

/-- Python `int(token)`: optional sign, then digits (underscore separators
allowed); `none` models `ValueError`. -/
def pyInt? : List Char → Option Int
  | '+' :: body =>
    if pyIntValid body then some (natOfDigits (body.filter (fun c => c ≠ '_'))) else none
  | '-' :: body =>
    if pyIntValid body then some (-(natOfDigits (body.filter (fun c => c ≠ '_')) : Int)) else none
  | body =>
    if pyIntValid body then some (natOfDigits (body.filter (fun c => c ≠ '_'))) else none

/-- Python `float(token)` restricted to tokens over `[\d.]+` (the only tokens
it receives here): valid iff at most one dot and at least one digit; `none`
models `ValueError`. -/
def pyFloatOfToken? (t : List Char) : Option ℚ :=
  if t.any Char.isDigit && t.count '.' ≤ 1 then
    let intPart := t.takeWhile (fun c => c ≠ '.')
    let fracPart := (t.dropWhile (fun c => c ≠ '.')).drop 1
    some ((natOfDigits intPart : ℚ) + (natOfDigits fracPart : ℚ) / (10 ^ fracPart.length))
  else none

/-- `'a,b,c'.split(',')` on character lists. -/
def splitComma : List Char → List (List Char)
  | [] => [[]]
  | c :: rest =>
    if c = ',' then [] :: splitComma rest
    else
      match splitComma rest with
      | g :: gs => (c :: g) :: gs
      | [] => [[c]]

/-- Python `str.strip()` with the same ASCII whitespace set. -/
def pyStrip (s : String) : String :=
  String.mk (((s.toList.dropWhile pyIsSpace).reverse.dropWhile pyIsSpace).reverse)

/-- The record `parse_log_line` builds for one line. -/
structure ParsedEntry where
  pool : Option String
  release : Option String
  upstream_statuses : List String
  final_status : Option Nat
  upstream : Option String
  request_time : Option ℚ
  upstream_response_time : Option String
  raw_line : String
deriving DecidableEq, Repr

/-- `parse_log_line`, body of the `try`: the only fallible extraction is
`float(request_time_match.group(1))`, whose `ValueError` is modelled by
`Except.error ()`. All other extractions are total. -/
def parse_log_line_exc (line : String) : Except Unit ParsedEntry :=
  let cs := line.toList
  let pool :=
    match searchTagClass "pool=".toList notSpaceClass cs with
    | some t => if String.mk t ≠ "-" then some (String.mk t) else none
    | none => none
  let release :=
    match searchTagClass "release=".toList notSpaceClass cs with
    | some t => if String.mk t ≠ "-" then some (String.mk t) else none
    | none => none
  let upstream_statuses :=
    match searchTagClass "upstream_status=".toList notSpaceClass cs with
    | some t => if String.mk t ≠ "-" then (splitComma t).map String.mk else []
    | none => []
  let final_status := searchQuotedStatus cs
  let upstream :=
    match searchTagClass "upstream=".toList notSpaceClass cs with
    | some t => some (String.mk t)
    | none => none
  let upstream_response_time :=
    match searchTagClass "upstream_response_time=".toList urtClass cs with
    | some t => some (String.mk t)
    | none => none
  match searchTagClass "request_time=".toList floatClass cs with
  | none =>
    Except.ok
      { pool := pool, release := release, upstream_statuses := upstream_statuses,
        final_status := final_status, upstream := upstream, request_time := none,
        upstream_response_time := upstream_response_time, raw_line := pyStrip line }
  | some t =>
    match pyFloatOfToken? t with
    | none => Except.error ()
    | some q =>
      Except.ok
        { pool := pool, release := release, upstream_statuses := upstream_statuses,
          final_status := final_status, upstream := upstream, request_time := some q,
          upstream_response_time := upstream_response_time, raw_line := pyStrip line }

/-- `parse_log_line`: the surrounding `try/except` turns any exception into
`None` (after logging). -/
def parse_log_line (line : String) : Option ParsedEntry :=
  (parse_log_line_exc line).toOption

/-- Configuration loaded in `LogWatcher.__init__` from the environment. -/
structure Config where
  slack_configured : Bool
  error_rate_threshold : ℚ
  window_size : Nat
  alert_cooldown_sec : ℚ
  maintenance_mode : Bool
  initial_active_pool : String
deriving DecidableEq, Repr

/-- The mutable state of `LogWatcher`. `request_window` lists oldest first;
`last_alert_times` is the insertion-ordered dict. -/
structure WState where
  last_seen_pool : Option String
  request_window : List Bool
  last_alert_times : List (String × ℚ)
deriving DecidableEq, Repr

def initState : WState :=
  { last_seen_pool := none, request_window := [], last_alert_times := [] }

/-- Dict lookup: `d.get(k)`. -/
def lookupT : List (String × ℚ) → String → Option ℚ
  | [], _ => none
  | (k, v) :: rest, key => if k = key then some v else lookupT rest key

/-- Dict lookup with default: `d.get(k, d0)`. -/
def lookupD (ts : List (String × ℚ)) (key : String) (d0 : ℚ) : ℚ :=
  (lookupT ts key).getD d0

/-- Dict assignment `d[k] = v` (keeps insertion position of an existing key). -/
def setT : List (String × ℚ) → String → ℚ → List (String × ℚ)
  | [], key, v => [(key, v)]
  | (k, w) :: rest, key, v =>
    if k = key then (key, v) :: rest else (k, w) :: setT rest key v

/-- Observable events: console prints and Slack webhook posts, at payload
level. -/
inductive Out where
  | consoleParseError
  | consoleBaseline (pool : String)
  | consoleSuppressedFailover (oldPool newPool : String)
  | consoleAlertFailover (oldPool newPool : String)
  | slackPostFailover (oldPool newPool : String)
  | consoleAlertErrorRate (rate : ℚ) (errorCount totalCount : Nat)
  | slackPostErrorRate (rate : ℚ) (errorCount totalCount : Nat)
  | consoleAlertRecovery (pool : String)
  | slackPostRecovery (pool : String)
deriving DecidableEq, Repr

/-- `send_slack_alert`: always print the console rendering; post to Slack only
when the webhook is configured (the post's outcome is swallowed). -/
def send_slack_alert (cfg : Config) (consoleO slackO : Out) : List Out :=
  consoleO :: (if cfg.slack_configured then [slackO] else [])

/-- `can_send_alert`: cooldown check; on success it also records
`last_alert_times[alert_type] = now`. Returns the flag and the updated dict. -/
def can_send_alert (cfg : Config) (times : List (String × ℚ)) (alert_type : String)
    (now : ℚ) : Bool × List (String × ℚ) :=
  let last_alert_time := lookupD times alert_type 0
  if cfg.alert_cooldown_sec ≤ now - last_alert_time then
    (true, setT times alert_type now)
  else
    (false, times)

/-- `send_failover_alert`: dispatch (console + optional Slack), then record
`last_alert_times['failover'] = time.time()`. Note it does NOT consult
`can_send_alert`. -/
def send_failover_alert (cfg : Config) (s : WState) (old_pool new_pool : String)
    (now : ℚ) : WState × List Out :=
  ({ s with last_alert_times := setT s.last_alert_times "failover" now },
   send_slack_alert cfg (Out.consoleAlertFailover old_pool new_pool)
     (Out.slackPostFailover old_pool new_pool))

/-- `send_error_rate_alert`: dispatch only (the cooldown slot was already
consumed by `can_send_alert`). -/
def send_error_rate_alert (cfg : Config) (error_rate : ℚ) (error_count total_count : Nat) :
    List Out :=
  send_slack_alert cfg (Out.consoleAlertErrorRate error_rate error_count total_count)
    (Out.slackPostErrorRate error_rate error_count total_count)

/-- `check_failover`: returns (failover detected?, new state, outputs). -/
def check_failover (cfg : Config) (s : WState) (pool : String) (now : ℚ) :
    Bool × WState × List Out :=
  match s.last_seen_pool with
  | none =>
    (false, { s with last_seen_pool := some pool }, [Out.consoleBaseline pool])
  | some last =>
    if pool ≠ last then
      let s' := { s with last_seen_pool := some pool }
      if !cfg.maintenance_mode then
        let r := send_failover_alert cfg s' last pool now
        (true, r.1, r.2)
      else
        (true, s', [Out.consoleSuppressedFailover last pool])
    else
      (false, s, [])

/-- Loop body over `parsed['upstream_statuses']` in `check_error_rate`:
non-integer tokens are skipped (`except: continue`). -/
def status_token_is_5xx (status : String) : Bool :=
  match pyInt? status.toList with
  | some status_code => decide (500 ≤ status_code ∧ status_code < 600)
  | none => false

/-- The error classification of one entry in `check_error_rate`: any upstream
5xx token, or a truthy final status in [500, 600) (`if parsed['final_status']
and 500 <= parsed['final_status'] < 600`). -/
def entry_is_error (parsed : ParsedEntry) : Bool :=
  parsed.upstream_statuses.any status_token_is_5xx ||
  (match parsed.final_status with
   | some v => decide (v ≠ 0 ∧ 500 ≤ v ∧ v < 600)
   | none => false)

/-- `deque(maxlen=cap).append(x)`: append, then drop from the left down to
`cap` elements. -/
def pushWindow (cap : Nat) (w : List Bool) (x : Bool) : List Bool :=
  (w ++ [x]).drop ((w ++ [x]).length - cap)

/-- `check_error_rate`: classify, append to the window, and once the
minimum-sample floor `max(10, window_size // 10)` is met compare the rate with
the threshold; in maintenance mode the `and` short-circuits, so
`can_send_alert` is never called. -/
def check_error_rate (cfg : Config) (s : WState) (parsed : ParsedEntry) (now : ℚ) :
    WState × List Out :=
  let has_5xx_error := entry_is_error parsed
  let window := pushWindow cfg.window_size s.request_window has_5xx_error
  let s1 := { s with request_window := window }
  let min_requests := max 10 (cfg.window_size / 10)
  if min_requests ≤ window.length then
    let error_count := window.count true
    let total_count := window.length
    let error_rate := ((error_count : ℚ) / (total_count : ℚ)) * 100
    if cfg.error_rate_threshold < error_rate then
      if !cfg.maintenance_mode then
        let r := can_send_alert cfg s1.last_alert_times "error_rate" now
        let s2 := { s1 with last_alert_times := r.2 }
        if r.1 then (s2, send_error_rate_alert cfg error_rate error_count total_count)
        else (s2, [])
      else (s1, [])
    else (s1, [])
  else (s1, [])

/-- `send_recovery_alert`: fires only when the tracked pool equals the
configured primary pool, gated by the `'recovery'` cooldown key. (Defined in
the source but never called.) -/
def send_recovery_alert (cfg : Config) (s : WState) (now : ℚ) : WState × List Out :=
  if s.last_seen_pool = some cfg.initial_active_pool then
    let r := can_send_alert cfg s.last_alert_times "recovery" now
    let s' := { s with last_alert_times := r.2 }
    if r.1 then
      (s', send_slack_alert cfg (Out.consoleAlertRecovery cfg.initial_active_pool)
        (Out.slackPostRecovery cfg.initial_active_pool))
    else (s', [])
  else (s, [])

/-- Body of the ingestion loop in `tail_log_file` for one line:
`if parsed and parsed['pool']: check_failover; check_error_rate`. The empty
string is Python-falsy, though a `\S+` capture is never empty. -/
def process_line (cfg : Config) (s : WState) (line : String) (now : ℚ) :
    WState × List Out :=
  match parse_log_line line with
  | none => (s, [Out.consoleParseError])
  | some parsed =>
    match parsed.pool with
    | none => (s, [])
    | some pool =>
      if pool = "" then (s, [])
      else
        let r1 := check_failover cfg s pool now
        let r2 := check_error_rate cfg r1.2.1 parsed now
        (r2.1, r1.2.2 ++ r2.2)

/-- The ingestion loop over a finite trace of (timestamp, line) pairs. -/
def process_lines (cfg : Config) : WState → List (ℚ × String) → WState × List Out
  | s, [] => (s, [])
  | s, (t, l) :: rest =>
    let r1 := process_line cfg s l t
    let r2 := process_lines cfg r1.1 rest
    (r2.1, r1.2 ++ r2.2)

/-- An output event belonging to the recovery-alert path. -/
def isRecoveryOut : Out → Bool
  | Out.consoleAlertRecovery _ => true
  | Out.slackPostRecovery _ => true
  | _ => false

/-- Count of failover console alerts in a trace. -/
def countFailoverConsole (l : List Out) : Nat :=
  l.countP (fun o => match o with | Out.consoleAlertFailover _ _ => true | _ => false)

/-- Count of failover Slack posts in a trace. -/
def countFailoverSlack (l : List Out) : Nat :=
  l.countP (fun o => match o with | Out.slackPostFailover _ _ => true | _ => false)

/-- A trace with no recovery-path event. -/
def noRecovery (l : List Out) : Bool := l.all (fun o => !(isRecoveryOut o))

/-! ### Helper lemmas -/

theorem lookupT_setT_ne (ts : List (String × ℚ)) (k k' : String) (v : ℚ) (h : k' ≠ k) :
    lookupT (setT ts k v) k' = lookupT ts k' := by
  induction ts with
  | nil =>
    simp only [setT, lookupT]
    rw [if_neg (fun hh => h hh.symm)]
  | cons p rest ih =>
    obtain ⟨a, b⟩ := p
    by_cases hak : a = k
    · subst hak
      simp only [setT, if_pos rfl, lookupT]
      rw [if_neg (fun hh => h hh.symm), if_neg (fun hh => h hh.symm)]
    · simp only [setT, if_neg hak, lookupT]
      split
      · rfl
      · exact ih

theorem pushWindow_length_le (cap : Nat) (w : List Bool) (x : Bool) :
    (pushWindow cap w x).length ≤ cap := by
  simp [pushWindow]
  omega

theorem foldl_pushWindow_length_le (cap : Nat) (bs : List Bool) (w : List Bool)
    (h : w.length ≤ cap) : ((bs.foldl (pushWindow cap) w).length ≤ cap) := by
  induction bs generalizing w with
  | nil => exact h
  | cons b bs ih => exact ih (pushWindow cap w b) (pushWindow_length_le cap w b)

/-! ### Concrete instances used by witnesses and counterexamples -/

/-- Default configuration (webhook configured, no maintenance). -/
def exCfg : Config :=
  { slack_configured := true, error_rate_threshold := 2, window_size := 200,
    alert_cooldown_sec := 300, maintenance_mode := false, initial_active_pool := "blue" }

/-- Maintenance-mode configuration with a 100-entry window (floor 10). -/
def exCfgMaint : Config :=
  { slack_configured := true, error_rate_threshold := 2, window_size := 100,
    alert_cooldown_sec := 300, maintenance_mode := true, initial_active_pool := "blue" }

/-- State tracking pool `blue` with nine straight errors in the window. -/
def exStateNine : WState :=
  { last_seen_pool := some "blue", request_window := List.replicate 9 true,
    last_alert_times := [] }

/-- An all-error parsed entry (upstream retry returned 502). -/
def exEntryError : ParsedEntry :=
  { pool := some "blue", release := none, upstream_statuses := ["502"],
    final_status := none, upstream := none, request_time := none,
    upstream_response_time := none, raw_line := "" }

/-! ### Claims -/

/-- C8 (amended): cooldown registry semantics of `can_send_alert`: a fire
attempt succeeds iff `now - lastFired.get(kind, 0) ≥ cooldownSeconds` — an
absent key is read as 0, so a never-fired kind is eligible exactly when
`now ≥ cooldownSeconds`, not unconditionally; on success `lastFired[kind]` is
set to `now`; on suppression nothing changes; and no call ever touches another
kind's entry. -/
theorem C8_cooldown_registry_semantics (cfg : Config) (times : List (String × ℚ))
    (kind : String) (now : ℚ) :
    ((can_send_alert cfg times kind now).1 = true ↔
      cfg.alert_cooldown_sec ≤ now - lookupD times kind 0) ∧
    (lookupT times kind = none →
      (can_send_alert cfg times kind now).1 = decide (cfg.alert_cooldown_sec ≤ now)) ∧
    ((can_send_alert cfg times kind now).1 = true →
      (can_send_alert cfg times kind now).2 = setT times kind now) ∧
    ((can_send_alert cfg times kind now).1 = false →
      (can_send_alert cfg times kind now).2 = times) ∧
    (∀ k, k ≠ kind →
      lookupT (can_send_alert cfg times kind now).2 k = lookupT times k) := by
  by_cases h : cfg.alert_cooldown_sec ≤ now - lookupD times kind 0
  · refine ⟨by simp [can_send_alert, h], ?_, ?_, ?_, ?_⟩
    · intro habs
      simp only [lookupD, habs, Option.getD_none, sub_zero] at h ⊢
      simp [can_send_alert, lookupD, habs, h]
    · intro _; simp [can_send_alert, h]
    · intro hf; simp [can_send_alert, h] at hf
    · intro k hk
      simp only [can_send_alert, h, if_pos]
      exact lookupT_setT_ne times kind k now hk
  · refine ⟨by simp [can_send_alert, h], ?_, ?_, ?_, ?_⟩
    · intro habs
      simp only [lookupD, habs, Option.getD_none, sub_zero] at h ⊢
      simp [can_send_alert, lookupD, habs, h]
    · intro ht; simp [can_send_alert, h] at ht
    · intro _; simp [can_send_alert, h]
    · intro k hk; simp [can_send_alert, h]

/-- C8 witness: with cooldown 300, a never-fired kind fires at t = 1000 and
records t = 1000; at t = 1100 it is suppressed with no state change; a
different kind's attempt leaves the first kind's entry untouched. -/
theorem C8_witness :
    (can_send_alert exCfg [] "failover" 1000).1 = true ∧
    (can_send_alert exCfg [] "failover" 1000).2 = [("failover", 1000)] ∧
    (can_send_alert exCfg [("failover", 1000)] "failover" 1100).1 = false ∧
    (can_send_alert exCfg [("failover", 1000)] "failover" 1100).2 = [("failover", 1000)] ∧
    lookupT (can_send_alert exCfg [("failover", 1000)] "error_rate" 1100).2 "failover" =
      some 1000 := by
  have h1 := (C8_cooldown_registry_semantics exCfg [] "failover" 1000).1.mpr
    (by norm_num [lookupD, lookupT, exCfg])
  have h2 : (can_send_alert exCfg [("failover", 1000)] "failover" 1100).1 = false := by
    have hiff := (C8_cooldown_registry_semantics exCfg [("failover", 1000)] "failover" 1100).1
    cases hb : (can_send_alert exCfg [("failover", 1000)] "failover" 1100).1
    · rfl
    · have := hiff.mp hb
      norm_num [lookupD, lookupT, exCfg] at this
  refine ⟨h1, ?_, h2, ?_, ?_⟩
  · rw [(C8_cooldown_registry_semantics exCfg [] "failover" 1000).2.2.1 h1]; rfl
  · exact (C8_cooldown_registry_semantics exCfg [("failover", 1000)] "failover" 1100).2.2.2.1 h2
  · rw [(C8_cooldown_registry_semantics exCfg [("failover", 1000)] "error_rate" 1100).2.2.2.2
      "failover" (by decide)]
    rfl

/-- C8 counterexample: an absent key is NOT eligible immediately. With
cooldown 300, a fire attempt for the never-fired kind `failover` at
`now = 100` reads `lastFired.get('failover', 0) = 0`, finds `100 - 0 < 300`,
and is suppressed with no state change — refuting the claim's absent-key rule
at a concrete input (reachable whenever `ALERT_COOLDOWN_SEC` exceeds the
current timestamp). -/
theorem C8_counterexample_absent_key_suppressed :
    lookupT [] "failover" = none ∧
    (100 : ℚ) < exCfg.alert_cooldown_sec ∧
    (can_send_alert exCfg [] "failover" 100).1 = false ∧
    (can_send_alert exCfg [] "failover" 100).2 = [] := by
  have hc : ¬(exCfg.alert_cooldown_sec ≤ (100 : ℚ) - lookupD [] "failover" 0) := by
    norm_num [exCfg, lookupD, lookupT]
  refine ⟨rfl, by norm_num [exCfg], ?_, ?_⟩
  · unfold can_send_alert
    dsimp only
    rw [if_neg hc]
  · unfold can_send_alert
    dsimp only
    rw [if_neg hc]

/-- C7: sliding-window invariant: after any sequence of `observe` calls the
window length never exceeds the capacity; when the window is full a new
observation evicts exactly the oldest entry (strict FIFO); and
`check_error_rate` updates the watcher's window exactly by this push. -/
theorem C7_sliding_window_invariant :
    (∀ (cap : Nat) (bs : List Bool), ((bs.foldl (pushWindow cap) []).length ≤ cap)) ∧
    (∀ (cap : Nat) (w : List Bool) (x : Bool), w.length = cap → 0 < cap →
      pushWindow cap w x = w.tail ++ [x]) ∧
    (∀ (cfg : Config) (s : WState) (p : ParsedEntry) (now : ℚ),
      (check_error_rate cfg s p now).1.request_window =
        pushWindow cfg.window_size s.request_window (entry_is_error p)) := by
  refine ⟨?_, ?_, ?_⟩
  · intro cap bs
    exact foldl_pushWindow_length_le cap bs [] (by simp)
  · intro cap w x hlen hpos
    cases w with
    | nil => simp at hlen; omega
    | cons y ys =>
      have h1 : ((y :: ys) ++ [x]).length - cap = 1 := by
        simp at hlen ⊢
        omega
      rw [pushWindow, h1]
      simp
  · intro cfg s p now
    unfold check_error_rate
    dsimp only
    repeat' split
    all_goals rfl

/-- C7 witness: a full window of capacity 2 holding `[true, false]` evicts the
oldest entry on the next push, giving `[false, true]`. -/
theorem C7_witness : pushWindow 2 [true, false] true = [false, true] := by
  have h := C7_sliding_window_invariant.2.1 2 [true, false] true rfl (by decide)
  simpa using h

/-- C5: minimum-sample floor: while the window (after the append) holds fewer
than `max(10, window_size / 10)` samples, `check_error_rate` reports nothing —
it only appends to the window, regardless of the window's content. -/
theorem C5_minimum_sample_floor (cfg : Config) (s : WState) (p : ParsedEntry) (now : ℚ)
    (h : (pushWindow cfg.window_size s.request_window (entry_is_error p)).length <
      max 10 (cfg.window_size / 10)) :
    check_error_rate cfg s p now =
      ({ s with request_window :=
          pushWindow cfg.window_size s.request_window (entry_is_error p) }, []) := by
  unfold check_error_rate
  rw [if_neg (by omega)]

/-- C5 witness: with capacity 200 (floor 20) and an empty window, even an
all-error entry produces no breach: the window becomes `[true]` and the trace
is empty. -/
theorem C5_witness :
    entry_is_error exEntryError = true ∧
    check_error_rate exCfg initState exEntryError 0 =
      ({ initState with request_window := [true] }, []) := by
  constructor
  · decide
  · rw [C5_minimum_sample_floor exCfg initState exEntryError 0 (by decide)]
    decide

/-- C6: Failover Detector contract of `check_failover`: the first observed
pool becomes the baseline with no failover reported; a differing pool updates
the tracked pool, returns `true`, and the trace reports the transition from
the old pool to the new one (as an alert, or as the suppressed console line
under maintenance); an equal pool reports nothing and changes nothing. -/
theorem C6_failover_detector_contract (cfg : Config) (s : WState) (pool : String)
    (now : ℚ) :
    (s.last_seen_pool = none →
      check_failover cfg s pool now =
        (false, { s with last_seen_pool := some pool }, [Out.consoleBaseline pool])) ∧
    (∀ old, s.last_seen_pool = some old → pool ≠ old →
      (check_failover cfg s pool now).1 = true ∧
      (check_failover cfg s pool now).2.1.last_seen_pool = some pool ∧
      (Out.consoleAlertFailover old pool ∈ (check_failover cfg s pool now).2.2 ∨
       Out.consoleSuppressedFailover old pool ∈ (check_failover cfg s pool now).2.2)) ∧
    (s.last_seen_pool = some pool →
      check_failover cfg s pool now = (false, s, [])) := by
  refine ⟨?_, ?_, ?_⟩
  · intro h
    simp [check_failover, h]
  · intro old hold hne
    by_cases hm : cfg.maintenance_mode <;>
      simp [check_failover, hold, hne, hm, send_failover_alert, send_slack_alert]
  · intro h
    simp [check_failover, h]

/-- C6 witness: from the initial state, observing `blue` establishes the
baseline silently; then observing `green` returns `true`, tracks `green`, and
reports the `blue → green` transition; observing `blue` again on a
`blue`-tracking state reports nothing and changes nothing. -/
theorem C6_witness :
    check_failover exCfg initState "blue" 0 =
      (false, { initState with last_seen_pool := some "blue" },
        [Out.consoleBaseline "blue"]) ∧
    ((check_failover exCfg { initState with last_seen_pool := some "blue" } "green" 5).1 =
      true ∧
     (check_failover exCfg { initState with last_seen_pool := some "blue" } "green" 5).2.1.last_seen_pool =
      some "green" ∧
     (Out.consoleAlertFailover "blue" "green" ∈
        (check_failover exCfg { initState with last_seen_pool := some "blue" } "green" 5).2.2 ∨
      Out.consoleSuppressedFailover "blue" "green" ∈
        (check_failover exCfg { initState with last_seen_pool := some "blue" } "green" 5).2.2)) ∧
    check_failover exCfg { initState with last_seen_pool := some "blue" } "blue" 5 =
      (false, { initState with last_seen_pool := some "blue" }, []) := by
  refine ⟨?_, ?_, ?_⟩
  · exact (C6_failover_detector_contract exCfg initState "blue" 0).1 rfl
  · exact (C6_failover_detector_contract exCfg
      { initState with last_seen_pool := some "blue" } "green" 5).2.1 "blue" rfl (by decide)
  · exact (C6_failover_detector_contract exCfg
      { initState with last_seen_pool := some "blue" } "blue" 5).2.2 rfl

/-- A log line whose upstream retry failed with 502 but whose final response
succeeded with 200. -/
def exLineRetry : String := "pool=blue upstream_status=502,200 \"GET / HTTP/1.1\" 200"

/-- C4: an entry is classified as an error iff some upstream-status token
parses as an integer in [500, 600) or its final status is in [500, 600);
non-numeric tokens are skipped. In particular the entry parsed from
`upstream_status=502,200` with final status 200 is classified as an error. -/
theorem C4_error_classification :
    (∀ p : ParsedEntry, entry_is_error p = true ↔
      ((∃ t ∈ p.upstream_statuses, ∃ n : ℤ,
          pyInt? t.toList = some n ∧ 500 ≤ n ∧ n < 600) ∨
       (∃ m : ℕ, p.final_status = some m ∧ 500 ≤ m ∧ m < 600))) ∧
    (parse_log_line exLineRetry).map (fun p => p.upstream_statuses) = some ["502", "200"] ∧
    (parse_log_line exLineRetry).map (fun p => p.final_status) = some (some 200) ∧
    (parse_log_line exLineRetry).map entry_is_error = some true := by
  refine ⟨fun p => ?_, by decide, by decide, by decide⟩
  simp only [entry_is_error, Bool.or_eq_true, List.any_eq_true]
  constructor
  · rintro (⟨t, ht, h5⟩ | hf)
    · left
      refine ⟨t, ht, ?_⟩
      unfold status_token_is_5xx at h5
      rcases hp : pyInt? t.toList with _ | n
      · rw [hp] at h5
        simp at h5
      · rw [hp] at h5
        simp only [decide_eq_true_eq] at h5
        exact ⟨n, rfl, h5.1, h5.2⟩
    · right
      rcases hfs : p.final_status with _ | v
      · rw [hfs] at hf
        simp at hf
      · rw [hfs] at hf
        simp only [decide_eq_true_eq] at hf
        exact ⟨v, rfl, hf.2.1, hf.2.2⟩
  · rintro (⟨t, ht, n, hn, h1, h2⟩ | ⟨m, hm, h1, h2⟩)
    · left
      refine ⟨t, ht, ?_⟩
      unfold status_token_is_5xx
      rw [hn]
      simp only [decide_eq_true_eq]
      exact ⟨h1, h2⟩
    · right
      rw [hm]
      simp only [decide_eq_true_eq]
      exact ⟨by omega, h1, h2⟩

/-- C2 (amended): under maintenance mode, an over-threshold error rate is
dropped silently: `check_error_rate` only appends to the window — it emits no
output at all (no console "suppressed" line, unlike the failover path), does
not call `can_send_alert`, and leaves `last_alert_times` untouched. -/
theorem C2_maintenance_error_rate_silent (cfg : Config) (s : WState) (p : ParsedEntry)
    (now : ℚ) (hm : cfg.maintenance_mode = true) :
    check_error_rate cfg s p now =
      ({ s with request_window :=
          pushWindow cfg.window_size s.request_window (entry_is_error p) }, []) := by
  unfold check_error_rate
  dsimp only
  simp only [hm, Bool.not_true]
  repeat' split
  all_goals simp_all

/-- C2 witness: concrete run of the amended claim: maintenance mode on, nine
errors in a 100-capacity window, an all-error tenth entry (floor 10 reached,
rate 100% > 2%): the result is the updated window, no output, no cooldown
consumption. -/
theorem C2_maintenance_witness :
    check_error_rate exCfgMaint exStateNine exEntryError 0 =
      ({ exStateNine with request_window := List.replicate 10 true }, []) := by
  rw [C2_maintenance_error_rate_silent exCfgMaint exStateNine exEntryError 0 rfl]
  decide

/-- C2 counterexample: the claim's first half is false on the code. With
maintenance mode set, the minimum-sample floor met, and the error rate (100%)
over the threshold (2%), `check_error_rate` writes NO console line recording
the suppressed event — its output trace is empty (while, as the second half
says, `lastFired['error_rate']` is indeed not advanced). -/
theorem C2_counterexample_no_console_line :
    exCfgMaint.maintenance_mode = true ∧
    max 10 (exCfgMaint.window_size / 10) ≤
      (pushWindow exCfgMaint.window_size exStateNine.request_window
        (entry_is_error exEntryError)).length ∧
    exCfgMaint.error_rate_threshold <
      (((pushWindow exCfgMaint.window_size exStateNine.request_window
          (entry_is_error exEntryError)).count true : ℚ) /
        ((pushWindow exCfgMaint.window_size exStateNine.request_window
          (entry_is_error exEntryError)).length : ℚ)) * 100 ∧
    (check_error_rate exCfgMaint exStateNine exEntryError 0).2 = [] ∧
    (check_error_rate exCfgMaint exStateNine exEntryError 0).1.last_alert_times =
      exStateNine.last_alert_times := by
  have hw : pushWindow exCfgMaint.window_size exStateNine.request_window
      (entry_is_error exEntryError) = List.replicate 10 true := by decide
  refine ⟨rfl, by decide, ?_, ?_, ?_⟩
  · rw [hw]
    simp [List.count_replicate_self]
    norm_num [exCfgMaint]
  · unfold check_error_rate
    dsimp only
    repeat' split
    all_goals first | decide | simp_all [exCfgMaint]
  · unfold check_error_rate
    dsimp only
    repeat' split
    all_goals first | decide | simp_all [exCfgMaint]

/-- The entry parsed from a `pool=-` line: the pool field is absent. -/
def exEntryDashPool : ParsedEntry :=
  { pool := none, release := none, upstream_statuses := ["502"], final_status := none,
    upstream := none, request_time := none, upstream_response_time := none,
    raw_line := "pool=- upstream_status=502" }

/-- C9: an ingested entry whose pool field is absent changes nothing: the
ingestion step returns the state unchanged (no failover tracking, no window
append) and produces no output. -/
theorem C9_absent_pool_no_state_change (cfg : Config) (s : WState) (line : String)
    (now : ℚ) (p : ParsedEntry) (hp : parse_log_line line = some p)
    (hpool : p.pool = none) :
    process_line cfg s line now = (s, []) := by
  simp [process_line, hp, hpool]

/-- C9 witness: the line `pool=- upstream_status=502` parses with an absent
pool and is ingested with no state change, even though its upstream status is
a 5xx. -/
theorem C9_witness :
    process_line exCfg exStateNine "pool=- upstream_status=502" 0 =
      (exStateNine, []) :=
  C9_absent_pool_no_state_change exCfg exStateNine "pool=- upstream_status=502" 0
    exEntryDashPool (by decide) rfl

/-- C10: parsing returns `null` iff field extraction raised (the only fallible
extraction is the `float` conversion of a matched `request_time` token); a
non-matching pool pattern yields an absent field rather than a failure; and a
parse failure never escapes the ingestion loop — the line is logged and
dropped with no state change. -/
theorem C10_parse_error_handling :
    (∀ line, (parse_log_line line = none ↔ parse_log_line_exc line = Except.error ())) ∧
    (∀ line p, parse_log_line line = some p →
      searchTagClass "pool=".toList notSpaceClass line.toList = none → p.pool = none) ∧
    (∀ (cfg : Config) (s : WState) (line : String) (now : ℚ),
      parse_log_line line = none →
      process_line cfg s line now = (s, [Out.consoleParseError])) := by
  refine ⟨fun line => ?_, fun line p hp hs => ?_, fun cfg s line now h => ?_⟩
  · unfold parse_log_line
    cases hexc : parse_log_line_exc line with
    | error e => cases e; simp [Except.toOption]
    | ok a => simp [Except.toOption]
  · unfold parse_log_line parse_log_line_exc at hp
    dsimp only at hp
    rw [hs] at hp
    dsimp only at hp
    split at hp
    · simp only [Except.toOption, Option.some.injEq] at hp
      rw [← hp]
    · split at hp
      · simp [Except.toOption] at hp
      · simp only [Except.toOption, Option.some.injEq] at hp
        rw [← hp]
  · simp [process_line, h]

/-- C10 witness: the line `request_time=1.2.3` matches the request-time
pattern but `float('1.2.3')` raises, so the whole line parses to `null`, and
the ingestion step logs it and continues with the state unchanged. -/
theorem C10_witness :
    parse_log_line "request_time=1.2.3" = none ∧
    process_line exCfg exStateNine "request_time=1.2.3" 0 =
      (exStateNine, [Out.consoleParseError]) := by
  have h1 : parse_log_line "request_time=1.2.3" = none :=
    (C10_parse_error_handling.1 "request_time=1.2.3").mpr (by rfl)
  exact ⟨h1, C10_parse_error_handling.2.2 exCfg exStateNine "request_time=1.2.3" 0 h1⟩

theorem check_failover_noRecovery (cfg : Config) (s : WState) (pool : String) (now : ℚ) :
    noRecovery (check_failover cfg s pool now).2.2 = true := by
  unfold check_failover send_failover_alert send_slack_alert
  cases hsp : s.last_seen_pool
  all_goals simp only [hsp]
  all_goals repeat' split
  all_goals simp [noRecovery, isRecoveryOut]

theorem check_failover_lookup_recovery (cfg : Config) (s : WState) (pool : String)
    (now : ℚ) :
    lookupT (check_failover cfg s pool now).2.1.last_alert_times "recovery" =
      lookupT s.last_alert_times "recovery" := by
  unfold check_failover send_failover_alert
  cases hsp : s.last_seen_pool
  all_goals simp only [hsp]
  all_goals repeat' split
  all_goals first
    | rfl
    | exact lookupT_setT_ne s.last_alert_times "failover" "recovery" now (by decide)

theorem check_error_rate_noRecovery (cfg : Config) (s : WState) (p : ParsedEntry)
    (now : ℚ) :
    noRecovery (check_error_rate cfg s p now).2 = true := by
  unfold check_error_rate send_error_rate_alert send_slack_alert
  dsimp only
  repeat' split
  all_goals simp [noRecovery, isRecoveryOut]

theorem check_error_rate_lookup_recovery (cfg : Config) (s : WState) (p : ParsedEntry)
    (now : ℚ) :
    lookupT (check_error_rate cfg s p now).1.last_alert_times "recovery" =
      lookupT s.last_alert_times "recovery" := by
  unfold check_error_rate can_send_alert
  dsimp only
  repeat' split
  all_goals first
    | rfl
    | exact lookupT_setT_ne s.last_alert_times "error_rate" "recovery" now (by decide)

theorem process_line_noRecovery (cfg : Config) (s : WState) (line : String) (now : ℚ) :
    noRecovery (process_line cfg s line now).2 = true := by
  unfold process_line
  rcases hp : parse_log_line line with _ | parsed
  · simp [noRecovery, isRecoveryOut]
  · dsimp only
    rcases hpl : parsed.pool with _ | pool
    · rfl
    · by_cases hpe : pool = ""
      · simp [hpe, noRecovery]
      · dsimp only
        rw [if_neg hpe]
        dsimp only
        have h1 := check_failover_noRecovery cfg s pool now
        have h2 := check_error_rate_noRecovery cfg
          (check_failover cfg s pool now).2.1 parsed now
        unfold noRecovery at h1 h2 ⊢
        rw [List.all_append, h1, h2]
        rfl

theorem process_line_lookup_recovery (cfg : Config) (s : WState) (line : String)
    (now : ℚ) :
    lookupT (process_line cfg s line now).1.last_alert_times "recovery" =
      lookupT s.last_alert_times "recovery" := by
  unfold process_line
  rcases hp : parse_log_line line with _ | parsed
  · rfl
  · dsimp only
    rcases hpl : parsed.pool with _ | pool
    · rfl
    · by_cases hpe : pool = ""
      · simp [hpe]
      · dsimp only
        rw [if_neg hpe]
        dsimp only
        rw [check_error_rate_lookup_recovery, check_failover_lookup_recovery]

/-- C3: the ingestion loop never dispatches a recovery alert: over any finite
trace of ingested lines the output contains no recovery event and the
`'recovery'` cooldown key is never touched; and the recovery-alert path itself
(`send_recovery_alert`, which the loop never calls) fires only when the
tracked pool equals the configured primary pool. -/
theorem C3_no_recovery_during_ingestion :
    (∀ (cfg : Config) (s : WState) (trace : List (ℚ × String)),
      noRecovery (process_lines cfg s trace).2 = true ∧
      lookupT (process_lines cfg s trace).1.last_alert_times "recovery" =
        lookupT s.last_alert_times "recovery") ∧
    (∀ (cfg : Config) (s : WState) (now : ℚ),
      s.last_seen_pool ≠ some cfg.initial_active_pool →
      send_recovery_alert cfg s now = (s, [])) := by
  constructor
  · intro cfg s trace
    induction trace generalizing s with
    | nil => exact ⟨rfl, rfl⟩
    | cons tl rest ih =>
      obtain ⟨t, l⟩ := tl
      unfold process_lines
      dsimp only
      constructor
      · have h1 := process_line_noRecovery cfg s l t
        have h2 := (ih (process_line cfg s l t).1).1
        unfold noRecovery at h1 h2 ⊢
        rw [List.all_append, h1, h2]
        rfl
      · rw [(ih (process_line cfg s l t).1).2, process_line_lookup_recovery]
  · intro cfg s now h
    unfold send_recovery_alert
    rw [if_neg h]

/-- A trace with two failover transitions 100 seconds apart. -/
def exTraceFailoverTwice : List (ℚ × String) :=
  [(0, "pool=blue"), (10, "pool=green"), (110, "pool=blue")]

/-- C3 witness: on a concrete trace with two failovers the output holds no
recovery event and the `'recovery'` cooldown key stays absent; and
`send_recovery_alert` on a state tracking a non-primary pool does nothing. -/
theorem C3_witness :
    noRecovery (process_lines exCfg initState exTraceFailoverTwice).2 = true ∧
    lookupT (process_lines exCfg initState exTraceFailoverTwice).1.last_alert_times
      "recovery" = none ∧
    send_recovery_alert exCfg { initState with last_seen_pool := some "green" } 0 =
      ({ initState with last_seen_pool := some "green" }, []) := by
  refine ⟨(C3_no_recovery_during_ingestion.1 exCfg initState exTraceFailoverTwice).1,
    ?_, ?_⟩
  · rw [(C3_no_recovery_during_ingestion.1 exCfg initState exTraceFailoverTwice).2]
    rfl
  · exact C3_no_recovery_during_ingestion.2 exCfg
      { initState with last_seen_pool := some "green" } 0 (by decide)

/-- C1: contrary to the claim, the failover alert kind is NOT cooldown-gated
in the code: on the trace blue → green (t=10) → blue (t=110) with cooldown
300, BOTH transitions dispatch a failover alert to the console and to the
webhook sink (`check_failover` calls `send_failover_alert` without consulting
`can_send_alert`), and the second dispatch — only 100 s after the first, well
inside the cooldown — overwrites `lastFired['failover']`. -/
theorem C1_failover_alert_not_cooldown_gated :
    countFailoverConsole (process_lines exCfg initState exTraceFailoverTwice).2 = 2 ∧
    countFailoverSlack (process_lines exCfg initState exTraceFailoverTwice).2 = 2 ∧
    lookupT (process_lines exCfg initState exTraceFailoverTwice).1.last_alert_times
      "failover" = some 110 ∧
    (110 : ℚ) - 10 < exCfg.alert_cooldown_sec := by
  refine ⟨by decide, by decide, by rfl, by norm_num [exCfg]⟩

end Watcher
